import Mathlib

/-!
Shallow embedding of the webActivity repository's core:
`network_monitor.py` (filter config, identity upsert, DNS/connection
classification), `scan_network.py` (ARP discovery scan and database save)
and `setup_mitm.py` (MITM controller setup/teardown traces).

Python strings are modelled as `List Char`; SQLite tables as Lean lists of
records; timestamps as `Nat`; raw-socket and DNS-resolution side effects as
explicit oracle parameters.
-/

namespace WebActivity

/-- Python `str` is modelled as a list of characters. -/
abbrev Str := List Char

/-- `str.upper()` on one character (ASCII, which covers MAC/IP strings). -/
def pyUpperChar (c : Char) : Char :=
  if 'a' ≤ c ∧ c ≤ 'z' then Char.ofNat (c.toNat - 32) else c

/-- Python `str.upper()`. -/
def pyUpper (s : Str) : Str := s.map pyUpperChar

/-- Python whitespace recognised by `str.strip()` with no argument. -/
def isPySpace (c : Char) : Bool :=
  c = ' ' ∨ c = '\t' ∨ c = '\n' ∨ c = '\x0b' ∨ c = '\x0c' ∨ c = '\r'

/-- Python `str.strip()`: drop leading and trailing whitespace. -/
def pyStrip (s : Str) : Str :=
  ((s.dropWhile isPySpace).reverse.dropWhile isPySpace).reverse

/-- Python `str.rstrip('.')`: drop every trailing dot character. -/
def pyRstripDots (s : Str) : Str :=
  (s.reverse.dropWhile (fun c => c == '.')).reverse

/-- Python `str.startswith` for a single pattern. -/
def pyStartswith (pre s : Str) : Bool := List.isPrefixOf pre s

/-- Python `str.startswith` applied to a tuple of patterns. -/
def pyStartswithAny (s : Str) (pres : List Str) : Bool :=
  pres.any (fun p => List.isPrefixOf p s)

/-- The decimal digit character for `n % 10`. -/
def digitChar (n : Nat) : Char := Char.ofNat (48 + n % 10)

/-- Fuel-bounded decimal rendering (fuel `n + 1` always suffices). -/
def natStrAux : Nat → Nat → Str
  | 0, _ => []
  | fuel + 1, n =>
    if n < 10 then [digitChar n] else natStrAux fuel (n / 10) ++ [digitChar n]

/-- Python `str(n)` for a natural number `n`. -/
def natStr (n : Nat) : Str := natStrAux (n + 1) n

/-! ### Filter configuration (`network_monitor.py`, `load_filter_config` /
`is_device_allowed`).  A JSON document is modelled by optional fields, so a
document lacking a key carries `none` there; `dict.get(k, d)` is `Option.getD`. -/

/-- The filter configuration document `device_filter.json`. -/
structure FilterConfig where
  monitor_all_devices : Option Bool
  interested_devices : Option (List Str)

/-- How reading `device_filter.json` went: the file is absent, it exists but
fails to parse, or it parses to a document. -/
inductive ConfigSource
  | missing
  | parseError
  | parsed (cfg : FilterConfig)

/-- The default configuration written when the file is missing
(`load_filter_config`, the `not os.path.exists` branch). -/
def defaultConfig : FilterConfig :=
  { monitor_all_devices := some true, interested_devices := some [] }

/-- `NetworkMonitor.load_filter_config`: missing file yields the default
config (and writes it out); a parse error yields the inline fallback
`{"monitor_all_devices": True, "interested_devices": []}`; otherwise the
parsed document is returned as-is. -/
def load_filter_config : ConfigSource → FilterConfig
  | .missing => defaultConfig
  | .parseError =>
    { monitor_all_devices := some true, interested_devices := some [] }
  | .parsed cfg => cfg

/-- `NetworkMonitor.is_device_allowed`: allow everything when
`monitor_all_devices` (defaulted to `True`) holds, else membership of the
`.upper().strip()`-normalized MAC in the normalized interested list. -/
def is_device_allowed (cfg : FilterConfig) (mac_address : Str) : Bool :=
  if cfg.monitor_all_devices.getD true then true
  else
    let mac_normalized := pyStrip (pyUpper mac_address)
    ((cfg.interested_devices.getD []).map
      (fun mac => pyStrip (pyUpper mac))).contains mac_normalized

/-! ### Device registry (`devices` table) and the identity upsert. -/

/-- One row of the `devices` table. -/
structure Device where
  id : Nat
  mac_address : Str
  ip_address : Str
  hostname : Option Str
  first_seen : Nat
  last_seen : Nat
deriving DecidableEq

/-- The `devices` table. -/
abbrev Registry := List Device

/-- The id SQLite AUTOINCREMENT assigns to the next inserted row. -/
def nextId (reg : Registry) : Nat := (reg.map (fun d => d.id)).foldr max 0 + 1

/-- `NetworkMonitor.get_or_create_device`: look the MAC up exactly as given
(`SELECT id FROM devices WHERE mac_address = ?`); on a hit update
`last_seen` and `ip_address` by row id; on a miss insert
`(mac_address, ip_address)` with both timestamps fresh.  Returns the
updated table and the device id. -/
def get_or_create_device (reg : Registry) (mac_address ip_address : Str)
    (now : Nat) : Registry × Nat :=
  match reg.find? (fun d => d.mac_address == mac_address) with
  | some d =>
    (reg.map (fun e =>
      if e.id == d.id then
        { e with last_seen := now, ip_address := ip_address }
      else e), d.id)
  | none =>
    let device_id := nextId reg
    (reg ++ [{ id := device_id, mac_address := mac_address,
               ip_address := ip_address, hostname := none,
               first_seen := now, last_seen := now }], device_id)

/-! ### Captured frames and activity events. -/

/-- Transport layer of a captured frame: at most one of TCP or UDP, with its
destination port. -/
inductive Transport
  | tcp (dport : Nat)
  | udp (dport : Nat)
deriving DecidableEq

/-- A captured frame, with each optional layer present or absent:
`dnsqr` is the DNS question (decoded name, numeric qtype), `ip` the pair
(source address, destination address), `ether_src` the source MAC. -/
structure Packet where
  dnsqr : Option (Str × Nat)
  ip : Option (Str × Str)
  ether_src : Option Str
  transport : Option Transport

/-- One row of the `dns_queries` table (timestamps left to SQLite). -/
structure DnsEvent where
  device_id : Nat
  source_ip : Str
  query_name : Str
  query_type : Str
deriving DecidableEq

/-- One row of the `connections` table. -/
structure ConnEvent where
  device_id : Nat
  source_ip : Str
  dest_ip : Str
  dest_port : Nat
  protocol : Str
deriving DecidableEq

/-- The `qtype_map` lookup with its `str(qtype)` fallback
(`qtype_map.get(dns_query.qtype, str(dns_query.qtype))`). -/
def queryTypeOf (qtype : Nat) : Str :=
  if qtype = 1 then "A".data
  else if qtype = 28 then "AAAA".data
  else if qtype = 5 then "CNAME".data
  else if qtype = 15 then "MX".data
  else if qtype = 16 then "TXT".data
  else natStr qtype

/-- `NetworkMonitor.log_dns_query`: on a frame with a DNS question, decode
the name and strip trailing dots, default the source IP and MAC to
`"Unknown"` when the layer is absent, drop the frame silently when the
filter rejects the MAC, otherwise upsert the device and append a row to
`dns_queries`.  Returns the updated registry and the appended row, if any. -/
def log_dns_query (cfg : FilterConfig) (reg : Registry) (p : Packet)
    (now : Nat) : Registry × Option DnsEvent :=
  match p.dnsqr with
  | none => (reg, none)
  | some (qname, qtype) =>
    let query_name := pyRstripDots qname
    let source_ip := match p.ip with
      | some sd => sd.1
      | none => "Unknown".data
    let mac_address := p.ether_src.getD "Unknown".data
    if is_device_allowed cfg mac_address then
      let r := get_or_create_device reg mac_address source_ip now
      (r.1, some { device_id := r.2, source_ip := source_ip,
                   query_name := query_name,
                   query_type := queryTypeOf qtype })
    else (reg, none)

/-- The tuple of private prefixes tested by
`source_ip.startswith(('192.168.', '10.', '172.16.'))`. -/
def privateRanges : List Str := ["192.168.".data, "10.".data, "172.16.".data]

/-- `NetworkMonitor.log_connection`: on a frame with an IP layer and a TCP
or UDP layer, drop silently when the filter rejects the MAC, when the
source address is outside the configured private ranges, when a TCP
destination port is not a web port, or when a UDP destination port is 53;
otherwise upsert the device and append a row to `connections`. -/
def log_connection (cfg : FilterConfig) (reg : Registry) (p : Packet)
    (now : Nat) : Registry × Option ConnEvent :=
  match p.ip, p.transport with
  | some sd, some tr =>
    let source_ip := sd.1
    let dest_ip := sd.2
    let mac_address := p.ether_src.getD "Unknown".data
    if ¬ is_device_allowed cfg mac_address then (reg, none)
    else if ¬ pyStartswithAny source_ip privateRanges then (reg, none)
    else
      match tr with
      | .tcp dport =>
        if dport ∉ ([80, 443, 8080, 8443] : List Nat) then (reg, none)
        else
          let r := get_or_create_device reg mac_address source_ip now
          (r.1, some { device_id := r.2, source_ip := source_ip,
                       dest_ip := dest_ip, dest_port := dport,
                       protocol := "TCP".data })
      | .udp dport =>
        if dport = 53 then (reg, none)
        else
          let r := get_or_create_device reg mac_address source_ip now
          (r.1, some { device_id := r.2, source_ip := source_ip,
                       dest_ip := dest_ip, dest_port := dport,
                       protocol := "UDP".data })
  | _, _ => (reg, none)

/-! ### Active discovery scanner (`scan_network.py`). -/

/-- One entry of the list `scan_network` builds. -/
structure DiscoveredDevice where
  ip : Str
  mac : Str
  hostname : Option Str
deriving DecidableEq

/-- Outcome of the raw `srp` broadcast in `scan_network`: either the
privilege failure (`PermissionError`) or the answered list, each reply as
`(psrc, hwsrc)` of the received ARP response. -/
inductive SrpOutcome
  | permissionDenied
  | answered (replies : List (Str × Str))

/-- `scan_network`: on `PermissionError` print an error and return `[]`;
otherwise one entry per matched reply, with `hwsrc.upper()` and the
best-effort reverse lookup (`get_hostname`, here the oracle
`hostnameOf`). -/
def scan_network (outcome : SrpOutcome) (hostnameOf : Str → Option Str) :
    List DiscoveredDevice :=
  match outcome with
  | .permissionDenied => []
  | .answered replies =>
    replies.map (fun r =>
      { ip := r.1, mac := pyUpper r.2, hostname := hostnameOf r.1 })

/-- `save_to_database`: for each discovered device, update the row with the
same exact `mac_address` (setting `ip_address`, `hostname`, `last_seen`) or
insert a fresh row. -/
def save_to_database (reg : Registry) (devices : List DiscoveredDevice)
    (now : Nat) : Registry :=
  devices.foldl (fun r device =>
    match r.find? (fun d => d.mac_address == device.mac) with
    | some _ =>
      r.map (fun e =>
        if e.mac_address == device.mac then
          { e with ip_address := device.ip, hostname := device.hostname,
                   last_seen := now }
        else e)
    | none =>
      r ++ [{ id := nextId r, mac_address := device.mac,
              ip_address := device.ip, hostname := device.hostname,
              first_seen := now, last_seen := now }]) reg

/-! ### MITM controller (`setup_mitm.py`), as traces of network-state
actions.  `macOf` is the oracle for `get_mac` (an ARP round trip that may
time out).  The platform is Linux, the branch where all the NAT state
exists. -/

/-- An externally visible network-state action of the controller. -/
inductive NetAction
  | enableForwarding
  | disableForwarding
  | addNatRule (dport toPort : Nat)
  | removeNatRule (dport toPort : Nat)
  | sendSpoof (pdst psrc : Str)
  | sendRestore (pdst psrc : Str) (count : Nat)
deriving DecidableEq

/-- `MITMSetup.spoof`: resolve the target's MAC; on success send one
falsified ARP announcement, on failure skip. -/
def spoofTrace (macOf : Str → Option Str) (target_ip spoof_ip : Str) :
    List NetAction :=
  match macOf target_ip with
  | some _ => [.sendSpoof target_ip spoof_ip]
  | none => []

/-- `MITMSetup.restore`: resolve both MACs; on success send the corrective
ARP announcement with `count=4`, otherwise send nothing. -/
def restoreTrace (macOf : Str → Option Str) (destination_ip source_ip : Str) :
    List NetAction :=
  match macOf destination_ip, macOf source_ip with
  | some _, some _ => [.sendRestore destination_ip source_ip 4]
  | _, _ => []

/-- `MITMSetup.restore_network`: for every target, restore the target's
cache then the gateway's. -/
def restore_network (macOf : Str → Option Str) (target_ips : List Str)
    (gateway_ip : Str) : List NetAction :=
  target_ips.flatMap (fun target_ip =>
    restoreTrace macOf target_ip gateway_ip ++
    restoreTrace macOf gateway_ip target_ip)

/-- `MITMSetup.setup_iptables_redirect` (Linux, default port 8080). -/
def setup_iptables_redirect : List NetAction :=
  [.addNatRule 80 8080, .addNatRule 443 8080]

/-- `MITMSetup.cleanup_iptables` (Linux, default port 8080). -/
def cleanup_iptables : List NetAction :=
  [.removeNatRule 80 8080, .removeNatRule 443 8080]

/-- One pass of the `while self.running` loop in
`MITMSetup.start_spoofing`: spoof the target and the gateway, for every
target. -/
def spoofCycle (macOf : Str → Option Str) (target_ips : List Str)
    (gateway_ip : Str) : List NetAction :=
  target_ips.flatMap (fun target_ip =>
    spoofTrace macOf target_ip gateway_ip ++
    spoofTrace macOf gateway_ip target_ip)

/-- `MITMSetup.start_spoofing`, run for `cycles` loop passes (the loop ends
when `running` flips or a `KeyboardInterrupt` lands, both leaving the
method normally). -/
def start_spoofing (macOf : Str → Option Str) (target_ips : List Str)
    (gateway_ip : Str) (cycles : Nat) : List NetAction :=
  (List.range cycles).flatMap (fun _ => spoofCycle macOf target_ips gateway_ip)

/-- The full action trace of `main`'s `try` block when it runs to normal
completion: enable forwarding, install the NAT redirect, spoof. -/
def tryBlockTrace (macOf : Str → Option Str) (target_ips : List Str)
    (gateway_ip : Str) (cycles : Nat) : List NetAction :=
  [.enableForwarding] ++ setup_iptables_redirect ++
  start_spoofing macOf target_ips gateway_ip cycles

/-- How `main`'s `try` block terminates: normal completion of the spoof
loop, a `KeyboardInterrupt` landing after `k` actions, or another
exception raised after `k` actions.  The latter two truncate the block's
trace at an arbitrary point. -/
inductive RunOutcome
  | normalStop
  | interrupted (k : Nat)
  | errorRaised (k : Nat)

/-- The actions of `main`'s `try` block under a given termination mode. -/
def tryTrace (macOf : Str → Option Str) (target_ips : List Str)
    (gateway_ip : Str) (cycles : Nat) : RunOutcome → List NetAction
  | .normalStop => tryBlockTrace macOf target_ips gateway_ip cycles
  | .interrupted k => (tryBlockTrace macOf target_ips gateway_ip cycles).take k
  | .errorRaised k => (tryBlockTrace macOf target_ips gateway_ip cycles).take k

/-- The `finally` block of `main`: `cleanup_iptables()`, then
`restore_network()`, then `disable_ip_forwarding()`. -/
def finallyTrace (macOf : Str → Option Str) (target_ips : List Str)
    (gateway_ip : Str) : List NetAction :=
  cleanup_iptables ++ restore_network macOf target_ips gateway_ip ++
  [.disableForwarding]

/-- The full action trace of `main` from entering the `try` block to
process exit: the `try` block's actions, then unconditionally the
`finally` block's. -/
def mainTrace (macOf : Str → Option Str) (target_ips : List Str)
    (gateway_ip : Str) (cycles : Nat) (o : RunOutcome) : List NetAction :=
  tryTrace macOf target_ips gateway_ip cycles o ++
  finallyTrace macOf target_ips gateway_ip

/-- Modelled from the spec: the teardown order §4.5 claims — for every
target the corrective announcements first, then removal of the NAT
redirect rules, then disabling of IP forwarding. -/
def specTeardownTrace (macOf : Str → Option Str) (target_ips : List Str)
    (gateway_ip : Str) : List NetAction :=
  restore_network macOf target_ips gateway_ip ++ cleanup_iptables ++
  [.disableForwarding]

/-! ### Shared concrete fixtures for witnesses and counterexamples. -/

/-- A configuration that monitors every device. -/
def monitorAllConfig : FilterConfig :=
  { monitor_all_devices := some true, interested_devices := some [] }

/-- The spec §8 scenario configuration: `monitor_all=false`,
one allowed link address. -/
def restrictedConfig : FilterConfig :=
  { monitor_all_devices := some false,
    interested_devices := some ["AA:BB:CC:DD:EE:FF".data] }

/-- A frame carrying a DNS question. -/
def dnsPacket (qname : Str) (qtype : Nat) (src dst mac : Str) : Packet :=
  { dnsqr := some (qname, qtype), ip := some (src, dst),
    ether_src := some mac, transport := some (.udp 53) }

/-- A frame carrying only an IP payload with a transport layer. -/
def connPacket (src dst mac : Str) (tr : Transport) : Packet :=
  { dnsqr := none, ip := some (src, dst), ether_src := some mac,
    transport := some tr }

/-- Resolve one link address repeatedly, each observation carrying a
network address and a timestamp, threading the registry through
`get_or_create_device`. -/
def resolveMany (reg : Registry) (mac_address : Str)
    (obs : List (Str × Nat)) : Registry :=
  obs.foldl (fun r o => (get_or_create_device r mac_address o.1 o.2).1) reg

/-- The actions the `finally` block of `setup_mitm.py`'s `main` is made
of: NAT rule removal, corrective ARP announcements, forwarding disable. -/
def isTeardownAction : NetAction → Bool
  | .removeNatRule _ _ => true
  | .sendRestore _ _ _ => true
  | .disableForwarding => true
  | _ => false

/-- A reverse-lookup oracle that never resolves a name. -/
def noHostnames : Str → Option Str := fun _ => none

/-- A `get_mac` oracle that resolves every address. -/
def allResolved : Str → Option Str := fun _ => some "cc:cc:cc:cc:cc:01".data

/-- Concrete MITM targets used in witnesses. -/
def cTargets : List Str := ["192.168.1.15".data]

/-- Concrete MITM gateway used in witnesses. -/
def cGateway : Str := "192.168.1.1".data

end WebActivity

namespace WebActivity

/-! ## C10 -/

/-- C10: if the filter configuration file is missing, fails to parse, or
lacks the `monitor_all_devices` key, the classifier falls back to
monitoring all devices: `is_device_allowed` returns `true` for every link
address. -/
theorem config_failure_monitors_all :
    (∀ mac, is_device_allowed (load_filter_config .missing) mac = true)
    ∧ (∀ mac, is_device_allowed (load_filter_config .parseError) mac = true)
    ∧ ∀ cfg : FilterConfig, cfg.monitor_all_devices = none →
        ∀ mac, is_device_allowed (load_filter_config (.parsed cfg)) mac = true := by
  refine ⟨fun mac => rfl, fun mac => rfl, fun cfg h mac => ?_⟩
  simp [is_device_allowed, load_filter_config, h]

/-- Witness for C10 at a concrete key-less document and link address. -/
theorem config_failure_monitors_all_witness :
    ({ monitor_all_devices := none,
       interested_devices := some [] } : FilterConfig).monitor_all_devices = none
    ∧ is_device_allowed
        (load_filter_config (.parsed
          { monitor_all_devices := none, interested_devices := some [] }))
        "11:22:33:44:55:66".data = true :=
  ⟨rfl, config_failure_monitors_all.2.2 _ rfl _⟩

/-! ## C2 -/

/-- C2: a frame whose source link address the allow-list filter rejects
produces no event of either kind, leaves the device registry unchanged
(no identity is created through the classification path), and is dropped
silently, in the DNS branch and in the connection branch alike.  Both
classification functions are total, so no error is raised. -/
theorem filter_rejection_is_silent (cfg : FilterConfig) (reg : Registry)
    (p : Packet) (now : Nat)
    (h : is_device_allowed cfg (p.ether_src.getD "Unknown".data) = false) :
    log_dns_query cfg reg p now = (reg, none)
    ∧ log_connection cfg reg p now = (reg, none) := by
  refine ⟨?_, ?_⟩
  · rcases hq : p.dnsqr with _ | ⟨qname, qtype⟩ <;>
      simp [log_dns_query, hq, h]
  · rcases hip : p.ip with _ | sd <;> rcases htr : p.transport with _ | tr <;>
      simp [log_connection, hip, htr, h]

/-- Witness for C2: the spec §8 scenario frame from `11:22:33:44:55:66`
querying `other.com` under the restricted configuration. -/
theorem filter_rejection_is_silent_witness :
    is_device_allowed restrictedConfig "11:22:33:44:55:66".data = false
    ∧ log_dns_query restrictedConfig []
        (dnsPacket "other.com.".data 1 "192.168.1.7".data "8.8.8.8".data
          "11:22:33:44:55:66".data) 0 = ([], none)
    ∧ log_connection restrictedConfig []
        (dnsPacket "other.com.".data 1 "192.168.1.7".data "8.8.8.8".data
          "11:22:33:44:55:66".data) 0 = ([], none) := by
  have h : is_device_allowed restrictedConfig "11:22:33:44:55:66".data = false := by
    decide
  have h2 := filter_rejection_is_silent restrictedConfig []
    (dnsPacket "other.com.".data 1 "192.168.1.7".data "8.8.8.8".data
      "11:22:33:44:55:66".data) 0 (by decide)
  exact ⟨h, h2.1, h2.2⟩

/-! ## C4 -/

/-- C4: a Connection Event is emitted only if the frame's source network
address lies within a configured private address range; a TCP frame to
destination port 443 from source `192.168.1.50` to any destination (from
an allowed device) yields exactly one Connection Event with protocol
`TCP`, while the same frame from any source failing every private-range
test yields no event and leaves the registry unchanged. -/
theorem connection_requires_private_source :
    (∀ (cfg : FilterConfig) (reg : Registry) (p : Packet) (now : Nat)
        (reg' : Registry) (ev : ConnEvent),
      log_connection cfg reg p now = (reg', some ev) →
      ∃ sd, p.ip = some sd ∧ pyStartswithAny sd.1 privateRanges = true)
    ∧ (∀ (cfg : FilterConfig) (reg : Registry) (now : Nat) (dst mac : Str),
        is_device_allowed cfg mac = true →
        log_connection cfg reg
            (connPacket "192.168.1.50".data dst mac (.tcp 443)) now
          = ((get_or_create_device reg mac "192.168.1.50".data now).1,
             some { device_id :=
                      (get_or_create_device reg mac "192.168.1.50".data now).2,
                    source_ip := "192.168.1.50".data, dest_ip := dst,
                    dest_port := 443, protocol := "TCP".data }))
    ∧ ∀ (cfg : FilterConfig) (reg : Registry) (now : Nat)
        (src dst mac : Str) (tr : Transport),
        pyStartswithAny src privateRanges = false →
        log_connection cfg reg (connPacket src dst mac tr) now = (reg, none) := by
  refine ⟨?_, ?_, ?_⟩
  · intro cfg reg p now reg' ev h
    rcases hip : p.ip with _ | sd
    · rw [log_connection] at h
      rcases htr : p.transport with _ | tr <;> simp [hip, htr] at h
    · rcases htr : p.transport with _ | tr
      · rw [log_connection] at h; simp [hip, htr] at h
      · refine ⟨sd, rfl, ?_⟩
        by_cases hpriv : pyStartswithAny sd.1 privateRanges = true
        · exact hpriv
        · exfalso
          rw [Bool.not_eq_true] at hpriv
          rw [log_connection] at h
          simp [hip, htr, hpriv] at h
  · intro cfg reg now dst mac hall
    have hpriv : pyStartswithAny "192.168.1.50".data privateRanges = true := by
      decide
    simp [log_connection, connPacket, hall, hpriv]
  · intro cfg reg now src dst mac tr hpriv
    rw [log_connection]
    simp [connPacket, hpriv]

/-- Witness for C4 at concrete inputs: an allowed device at
`192.168.1.50` emits the TCP 443 event, and the same frame from `8.8.8.8`
emits nothing. -/
theorem connection_requires_private_source_witness :
    is_device_allowed monitorAllConfig "AA:BB:CC:DD:EE:FF".data = true
    ∧ log_connection monitorAllConfig []
        (connPacket "192.168.1.50".data "93.184.216.34".data
          "AA:BB:CC:DD:EE:FF".data (.tcp 443)) 0
      = ((get_or_create_device [] "AA:BB:CC:DD:EE:FF".data
            "192.168.1.50".data 0).1,
         some { device_id :=
                  (get_or_create_device [] "AA:BB:CC:DD:EE:FF".data
                    "192.168.1.50".data 0).2,
                source_ip := "192.168.1.50".data,
                dest_ip := "93.184.216.34".data,
                dest_port := 443, protocol := "TCP".data })
    ∧ pyStartswithAny "8.8.8.8".data privateRanges = false
    ∧ log_connection monitorAllConfig []
        (connPacket "8.8.8.8".data "93.184.216.34".data
          "AA:BB:CC:DD:EE:FF".data (.tcp 443)) 0 = ([], none) := by
  refine ⟨by decide, ?_, by decide, ?_⟩
  · exact connection_requires_private_source.2.1 monitorAllConfig [] 0
      "93.184.216.34".data "AA:BB:CC:DD:EE:FF".data (by decide)
  · exact connection_requires_private_source.2.2 monitorAllConfig [] 0
      "8.8.8.8".data "93.184.216.34".data "AA:BB:CC:DD:EE:FF".data
      (.tcp 443) (by decide)

/-! ## C5 -/

/-- C5: for a frame from an allowed device with a private-range source,
TCP emits a Connection Event iff the destination port is one of
{80, 443, 8080, 8443}, and UDP emits one iff the destination port is
not 53. -/
theorem port_scoping (cfg : FilterConfig) (reg : Registry) (now : Nat)
    (src dst mac : Str) (dport : Nat)
    (hall : is_device_allowed cfg mac = true)
    (hpriv : pyStartswithAny src privateRanges = true) :
    (((log_connection cfg reg (connPacket src dst mac (.tcp dport)) now).2).isSome
        = true ↔ dport ∈ ([80, 443, 8080, 8443] : List Nat))
    ∧ (((log_connection cfg reg (connPacket src dst mac (.udp dport)) now).2).isSome
        = true ↔ dport ≠ 53) := by
  constructor
  · by_cases hm : dport ∈ ([80, 443, 8080, 8443] : List Nat) <;>
      simp [log_connection, connPacket, hall, hpriv, hm]
  · by_cases h53 : dport = 53 <;>
      simp [log_connection, connPacket, hall, hpriv, h53]

/-- Witness for C5 at concrete inputs: TCP port 22 is out of scope, UDP
port 123 is in scope. -/
theorem port_scoping_witness :
    (((log_connection monitorAllConfig []
        (connPacket "192.168.1.50".data "93.184.216.34".data
          "AA:BB:CC:DD:EE:FF".data (.tcp 22)) 0).2).isSome = true
      ↔ (22 : Nat) ∈ ([80, 443, 8080, 8443] : List Nat))
    ∧ (((log_connection monitorAllConfig []
        (connPacket "192.168.1.50".data "93.184.216.34".data
          "AA:BB:CC:DD:EE:FF".data (.udp 123)) 0).2).isSome = true
      ↔ (123 : Nat) ≠ 53) := by
  have h := port_scoping monitorAllConfig [] 0 "192.168.1.50".data
    "93.184.216.34".data "AA:BB:CC:DD:EE:FF".data 22 (by decide) (by decide)
  have h2 := port_scoping monitorAllConfig [] 0 "192.168.1.50".data
    "93.184.216.34".data "AA:BB:CC:DD:EE:FF".data 123 (by decide) (by decide)
  exact ⟨h.1, h2.2⟩

/-! ## C8 -/

/-- C8: the emitted DNS event's `query_type` is the enumerated name for
the mapped numeric codes (1 → `A`, 28 → `AAAA`, 5 → `CNAME`, 15 → `MX`,
16 → `TXT`) and the decimal string of the code for every unmapped code
(99 → `"99"`). -/
theorem dns_query_type_mapping :
    (∀ (reg : Registry) (now qtype : Nat) (qname src dst mac : Str),
      ((log_dns_query monitorAllConfig reg
          (dnsPacket qname qtype src dst mac) now).2).map
        (fun ev => ev.query_type) = some (queryTypeOf qtype))
    ∧ queryTypeOf 1 = "A".data ∧ queryTypeOf 28 = "AAAA".data
    ∧ queryTypeOf 5 = "CNAME".data ∧ queryTypeOf 15 = "MX".data
    ∧ queryTypeOf 16 = "TXT".data
    ∧ (∀ q : Nat, q ∉ ([1, 28, 5, 15, 16] : List Nat) →
        queryTypeOf q = natStr q)
    ∧ natStr 99 = "99".data := by
  refine ⟨?_, by decide, by decide, by decide, by decide, by decide, ?_,
    by decide⟩
  · intro reg now qtype qname src dst mac
    simp [log_dns_query, dnsPacket, is_device_allowed, monitorAllConfig]
  · intro q hq
    simp only [List.mem_cons, List.not_mem_nil, or_false] at hq
    push_neg at hq
    obtain ⟨h1, h28, h5, h15, h16⟩ := hq
    simp [queryTypeOf, h1, h28, h5, h15, h16]

/-- Witness for C8: the unmapped code 99 renders as its decimal string. -/
theorem dns_query_type_mapping_witness :
    (99 : Nat) ∉ ([1, 28, 5, 15, 16] : List Nat)
    ∧ queryTypeOf 99 = "99".data := by
  refine ⟨by decide, ?_⟩
  rw [dns_query_type_mapping.2.2.2.2.2.2.1 99 (by decide)]
  exact dns_query_type_mapping.2.2.2.2.2.2.2

/-! ## C9 -/

/-- C9 counterexample: the code strips every trailing separator, not
exactly one.  A query whose decoded name is `"a.."` is stored as `"a"`,
whereas the claim predicts `"a."`. -/
theorem dns_trailing_dot_counterexample :
    ((log_dns_query monitorAllConfig []
        (dnsPacket "a..".data 1 "192.168.1.7".data "8.8.8.8".data
          "AA:BB:CC:DD:EE:FF".data) 0).2).map (fun ev => ev.query_name)
      = some "a".data
    ∧ "a".data ≠ "a.".data := by decide

/-- C9 amended: the `query_name` stored on an emitted DNS event is the
decoded name with every trailing separator stripped — `"example.com."`
yields `"example.com"`, appending any number of trailing dots never
changes the stored name, and a name not ending in a separator is stored
unchanged. -/
theorem dns_trailing_dots_all_stripped :
    (∀ (reg : Registry) (now qtype : Nat) (qname src dst mac : Str),
      ((log_dns_query monitorAllConfig reg
          (dnsPacket qname qtype src dst mac) now).2).map
        (fun ev => ev.query_name) = some (pyRstripDots qname))
    ∧ pyRstripDots "example.com.".data = "example.com".data
    ∧ (∀ (s : Str) (n : Nat),
        pyRstripDots (s ++ List.replicate n '.') = pyRstripDots s)
    ∧ ∀ s : Str, s.getLast? ≠ some '.' → pyRstripDots s = s := by
  refine ⟨?_, by decide, ?_, ?_⟩
  · intro reg now qtype qname src dst mac
    simp [log_dns_query, dnsPacket, is_device_allowed, monitorAllConfig]
  · intro s n
    unfold pyRstripDots
    rw [List.reverse_append, List.reverse_replicate]
    congr 1
    induction n with
    | zero => simp
    | succ n ih => simp [List.replicate_succ, List.dropWhile_cons, ih]
  · intro s h
    have h1 : s.reverse.head? ≠ some '.' := by
      rw [List.head?_reverse]; exact h
    rcases hs : s.reverse with _ | ⟨c, t⟩
    · have : s = [] := by
        have h2 := congrArg List.reverse hs
        simpa using h2
      simp [this, pyRstripDots]
    · have hc : ¬ (c == '.') = true := by
        rw [hs] at h1
        simpa using h1
      unfold pyRstripDots
      rw [hs, List.dropWhile_cons, if_neg hc, ← hs, List.reverse_reverse]

/-- Witness for C9 (amended) at a concrete input: a name with no trailing
separator is stored unchanged. -/
theorem dns_trailing_dots_all_stripped_witness :
    ("example.com".data : Str).getLast? ≠ some '.'
    ∧ pyRstripDots "example.com".data = "example.com".data :=
  ⟨by decide, dns_trailing_dots_all_stripped.2.2.2 "example.com".data
    (by decide)⟩

/-! ## C3 -/

/-- Upserting into a one-row registry holding the same exact link address
keeps one row, updating `ip_address` and `last_seen` to the last
observation and preserving `first_seen`. -/
theorem resolveMany_single_row (mac : Str) (t0 : Nat) :
    ∀ (obs : List (Str × Nat)) (ip : Str) (t : Nat),
      resolveMany [{ id := 1, mac_address := mac, ip_address := ip,
                     hostname := none, first_seen := t0, last_seen := t }]
          mac obs
        = [{ id := 1, mac_address := mac,
             ip_address := (obs.getLastD (ip, t)).1, hostname := none,
             first_seen := t0, last_seen := (obs.getLastD (ip, t)).2 }]
  | [], ip, t => by simp [resolveMany]
  | o :: obs, ip, t => by
    have step : (get_or_create_device
        [{ id := 1, mac_address := mac, ip_address := ip, hostname := none,
           first_seen := t0, last_seen := t }] mac o.1 o.2).1
        = [{ id := 1, mac_address := mac, ip_address := o.1,
             hostname := none, first_seen := t0, last_seen := o.2 }] := by
      simp [get_or_create_device, List.find?_cons]
    have ih := resolveMany_single_row mac t0 obs o.1 o.2
    simp only [resolveMany, List.foldl_cons] at ih ⊢
    rw [step]
    rw [ih, List.getLastD_cons]

/-- C3 counterexample: the upsert does not normalize the link address —
the same MAC in lower case and in upper case creates two identity
records, though both normalize to the same link address. -/
theorem upsert_no_normalization_counterexample :
    ((get_or_create_device
        (get_or_create_device [] "aa:bb:cc:dd:ee:ff".data
          "192.168.1.5".data 1).1
        "AA:BB:CC:DD:EE:FF".data "192.168.1.6".data 2).1).length = 2
    ∧ pyStrip (pyUpper "aa:bb:cc:dd:ee:ff".data)
        = pyStrip (pyUpper "AA:BB:CC:DD:EE:FF".data) := by decide

/-- C3 amended: the upsert uses the link address exactly as supplied (no
trim/uppercase normalization) as the lookup key; resolving the same exact
link-address string N ≥ 1 times with varying network addresses yields
exactly one identity record, whose `ip_address` equals the last supplied
value and whose `first_seen` equals the timestamp of the first call.
Case or whitespace variants of a link address create separate records. -/
theorem upsert_exact_key_idempotent (mac ip0 : Str) (t0 : Nat)
    (obs : List (Str × Nat)) :
    resolveMany [] mac ((ip0, t0) :: obs)
      = [{ id := 1, mac_address := mac,
           ip_address := (obs.getLastD (ip0, t0)).1, hostname := none,
           first_seen := t0, last_seen := (obs.getLastD (ip0, t0)).2 }] := by
  have h0 : (get_or_create_device [] mac ip0 t0).1
      = [{ id := 1, mac_address := mac, ip_address := ip0, hostname := none,
           first_seen := t0, last_seen := t0 }] := by
    simp [get_or_create_device, nextId]
  simp only [resolveMany, List.foldl_cons]
  rw [h0]
  exact resolveMany_single_row mac t0 obs ip0 t0

/-! ## C6 -/

/-- C6 counterexample: on a privilege failure `scan_network` returns the
very same value as a successful scan that found no devices — `[]` — so a
caller receiving the result cannot distinguish the two conditions. -/
theorem scan_permission_indistinguishable :
    scan_network .permissionDenied noHostnames
      = scan_network (.answered []) noHostnames := rfl

/-- C6 amended: when the scanner lacks the privilege to send raw frames it
prints an error message and returns the empty list, the same result value
as a successful scan that found no devices; the failure is reported only
on the console, not through the return value. -/
theorem scan_permission_returns_empty (hostnameOf : Str → Option Str) :
    scan_network .permissionDenied hostnameOf = []
    ∧ scan_network (.answered []) hostnameOf = [] :=
  ⟨rfl, rfl⟩

/-! ## C7 -/

/-- C7 counterexample: the list returned by `scan_network` is not
deduplicated by link address — two replies carrying the same hardware
address yield two entries, and neither entry is dropped in favour of the
most recent one. -/
theorem scan_no_dedup_counterexample :
    scan_network (.answered
        [("192.168.1.5".data, "aa:aa:aa:aa:aa:01".data),
         ("192.168.1.6".data, "aa:aa:aa:aa:aa:01".data)]) noHostnames
      = [{ ip := "192.168.1.5".data, mac := "AA:AA:AA:AA:AA:01".data,
           hostname := none },
         { ip := "192.168.1.6".data, mac := "AA:AA:AA:AA:AA:01".data,
           hostname := none }] := by decide

/-- C7 amended: within a single scan the returned list has exactly one
entry per matched reply, with no deduplication by link address; a device
that replies to several probes yields several entries.  Deduplication
happens only when the list is persisted: the database upsert keyed on the
link address leaves a single record holding the most recently observed
network address. -/
theorem scan_one_entry_per_reply :
    (∀ (replies : List (Str × Str)) (hostnameOf : Str → Option Str),
      (scan_network (.answered replies) hostnameOf).length = replies.length)
    ∧ ∀ (ip1 ip2 m : Str) (hostnameOf : Str → Option Str) (now : Nat),
        save_to_database []
            (scan_network (.answered [(ip1, m), (ip2, m)]) hostnameOf) now
          = [{ id := 1, mac_address := pyUpper m, ip_address := ip2,
               hostname := hostnameOf ip2, first_seen := now,
               last_seen := now }] := by
  constructor
  · intro replies hostnameOf
    simp [scan_network]
  · intro ip1 ip2 m hostnameOf now
    simp [scan_network, save_to_database, nextId, List.find?_cons]

/-! ## C1 -/

/-- A spoof announcement is never a teardown action. -/
theorem spoofTrace_no_teardown (macOf : Str → Option Str) (x y : Str) :
    ∀ a ∈ spoofTrace macOf x y, isTeardownAction a = false := by
  intro a ha
  rcases hm : macOf x with _ | m <;> simp [spoofTrace, hm] at ha
  subst ha; rfl

/-- Corrective announcements are teardown actions. -/
theorem restoreTrace_teardown (macOf : Str → Option Str) (x y : Str) :
    ∀ a ∈ restoreTrace macOf x y, isTeardownAction a = true := by
  intro a ha
  rcases hx : macOf x with _ | mx <;> rcases hy : macOf y with _ | my <;>
    simp [restoreTrace, hx, hy] at ha
  subst ha; rfl

/-- No action of the `try` block of `main` is a teardown action. -/
theorem tryBlock_no_teardown (macOf : Str → Option Str)
    (target_ips : List Str) (gateway_ip : Str) (cycles : Nat) :
    ∀ a ∈ tryBlockTrace macOf target_ips gateway_ip cycles,
      isTeardownAction a = false := by
  intro a ha
  simp only [tryBlockTrace, setup_iptables_redirect, start_spoofing,
    spoofCycle, List.mem_append, List.mem_cons, List.not_mem_nil, or_false,
    List.mem_flatMap] at ha
  rcases ha with (ha | ha | ha) | ⟨n, hn, t, ht, ha | ha⟩
  · subst ha; rfl
  · subst ha; rfl
  · subst ha; rfl
  · exact spoofTrace_no_teardown macOf t gateway_ip a ha
  · exact spoofTrace_no_teardown macOf gateway_ip t a ha

/-- C1 counterexample: in the actual teardown the NAT redirect rules are
removed *before* the corrective address-resolution announcements, so the
teardown differs from the order the claim states (announcements first,
then rule removal, then forwarding disable) already for a single target
whose MACs all resolve. -/
theorem mitm_teardown_order_counterexample :
    finallyTrace allResolved ["192.168.1.15".data] "192.168.1.1".data
      = [.removeNatRule 80 8080, .removeNatRule 443 8080,
         .sendRestore "192.168.1.15".data "192.168.1.1".data 4,
         .sendRestore "192.168.1.1".data "192.168.1.15".data 4,
         .disableForwarding]
    ∧ finallyTrace allResolved ["192.168.1.15".data] "192.168.1.1".data
      ≠ specTeardownTrace allResolved ["192.168.1.15".data]
          "192.168.1.1".data := by
  refine ⟨by decide, by decide⟩

/-- C1 amended: on every termination path of the controller — normal
stop, operator cancellation, or an error raised after setup begins — the
full `finally` teardown runs before process exit, and no teardown action
occurs earlier; its steps run in the code's order: removal of the NAT
redirect rules first, then for every target the corrective
address-resolution announcements (sent 4 times per resolvable pair), then
disabling of IP forwarding. -/
theorem mitm_teardown_runs_on_every_exit (macOf : Str → Option Str)
    (target_ips : List Str) (gateway_ip : Str) (cycles : Nat)
    (o : RunOutcome) :
    mainTrace macOf target_ips gateway_ip cycles o
      = tryTrace macOf target_ips gateway_ip cycles o
        ++ (cleanup_iptables ++ restore_network macOf target_ips gateway_ip
            ++ [.disableForwarding])
    ∧ (∀ a ∈ tryTrace macOf target_ips gateway_ip cycles o,
        isTeardownAction a = false)
    ∧ ∀ a ∈ finallyTrace macOf target_ips gateway_ip,
        isTeardownAction a = true := by
  refine ⟨rfl, ?_, ?_⟩
  · intro a ha
    have hsub : a ∈ tryBlockTrace macOf target_ips gateway_ip cycles := by
      cases o with
      | normalStop => exact ha
      | interrupted k => exact List.take_subset k _ ha
      | errorRaised k => exact List.take_subset k _ ha
    exact tryBlock_no_teardown macOf target_ips gateway_ip cycles a hsub
  · intro a ha
    simp only [finallyTrace, cleanup_iptables, restore_network,
      List.mem_append, List.mem_cons, List.not_mem_nil, or_false,
      List.mem_flatMap] at ha
    rcases ha with ((ha | ha) | ⟨t, ht, ha | ha⟩) | ha
    · subst ha; rfl
    · subst ha; rfl
    · exact restoreTrace_teardown macOf t gateway_ip a ha
    · exact restoreTrace_teardown macOf gateway_ip t a ha
    · subst ha; rfl

/-- Witness for C1 (amended) on a concrete interrupted run: the teardown
suffix appears in full after the truncated `try` block. -/
theorem mitm_teardown_runs_on_every_exit_witness :
    mainTrace allResolved cTargets cGateway 1 (.interrupted 2)
      = tryTrace allResolved cTargets cGateway 1 (.interrupted 2)
        ++ (cleanup_iptables ++ restore_network allResolved cTargets cGateway
            ++ [.disableForwarding]) :=
  (mitm_teardown_runs_on_every_exit allResolved cTargets cGateway 1
    (.interrupted 2)).1

end WebActivity
